import Mathlib

/-!
Verification development for the health-bot repository: a shallow embedding of
the aggregation/scoring engine (`src/aggregator/aggregator.py`), the credential
lifecycle manager (`src/auth/flask_server.py`), the provider clients
(`src/clients/whoop_client.py`, `src/clients/oura_client.py`) and the SQLite
persistence layer (`src/database/db.py`), together with theorems settling the
spec's claims about them.

Python floats are modelled by `ℚ`; Python's `round(x, 1)` (round half to even)
is modelled exactly by `rnd1`.  Dictionaries of normalized metrics are modelled
by structures whose fields are `Option ℚ` / `Option String` (absent key or
`None` value both map to `none`, matching how `dict.get` and `_safe` treat
them).  SQLite tables are modelled by association lists, and fallible calls
(HTTP requests, raising code paths) by `Option` / `Except` parameters and
results.
-/

set_option autoImplicit false

namespace HealthBot

/-! ## Rounding: Python's `round` on rationals -/

/-- Python's built-in `round(z)`: round half to even (banker's rounding). -/
def pyRound (z : ℚ) : ℤ :=
  if z - ⌊z⌋ < 1/2 then ⌊z⌋
  else if 1/2 < z - ⌊z⌋ then ⌊z⌋ + 1
  else if ⌊z⌋ % 2 = 0 then ⌊z⌋ else ⌊z⌋ + 1

/-- Python's `round(x, 1)`: round to one decimal place. -/
def rnd1 (x : ℚ) : ℚ := (pyRound (x * 10) : ℚ) / 10

theorem floor_le_pyRound (z : ℚ) : ⌊z⌋ ≤ pyRound z := by
  unfold pyRound
  repeat' split
  all_goals omega

theorem pyRound_le_ceil (z : ℚ) : pyRound z ≤ ⌈z⌉ := by
  have hfc : ⌊z⌋ ≤ ⌈z⌉ := Int.floor_le_ceil z
  have hkey : (1:ℚ)/2 ≤ z - ⌊z⌋ → ⌊z⌋ + 1 ≤ ⌈z⌉ := by
    intro h
    have hz : (⌊z⌋ : ℚ) < z := by linarith
    have := Int.lt_ceil.mpr hz
    omega
  unfold pyRound
  split
  · exact hfc
  · rename_i h1
    split
    · rename_i h2
      exact hkey (le_of_lt h2)
    · split
      · exact hfc
      · exact hkey (le_of_not_lt h1)

theorem pyRound_le_of_le (z : ℚ) (k : ℤ) (h : z ≤ (k : ℚ)) : pyRound z ≤ k :=
  le_trans (pyRound_le_ceil z) (Int.ceil_le.mpr h)

theorem le_pyRound_of_le (k : ℤ) (z : ℚ) (h : (k : ℚ) ≤ z) : k ≤ pyRound z :=
  le_trans (Int.le_floor.mpr h) (floor_le_pyRound z)

/-- If `x ≤ k/10` then `rnd1 x ≤ k/10`: rounding to one decimal never
overshoots a bound that is itself a multiple of one tenth. -/
theorem rnd1_le_tenth (x : ℚ) (k : ℤ) (h : x ≤ (k : ℚ) / 10) :
    rnd1 x ≤ (k : ℚ) / 10 := by
  unfold rnd1
  have h10 : x * 10 ≤ (k : ℚ) := by linarith
  have := pyRound_le_of_le (x * 10) k h10
  have : ((pyRound (x * 10) : ℤ) : ℚ) ≤ (k : ℚ) := by exact_mod_cast this
  linarith

/-- If `k/10 ≤ x` then `k/10 ≤ rnd1 x`. -/
theorem tenth_le_rnd1 (k : ℤ) (x : ℚ) (h : (k : ℚ) / 10 ≤ x) :
    (k : ℚ) / 10 ≤ rnd1 x := by
  unfold rnd1
  have h10 : (k : ℚ) ≤ x * 10 := by linarith
  have := le_pyRound_of_le k (x * 10) h10
  have : (k : ℚ) ≤ ((pyRound (x * 10) : ℤ) : ℚ) := by exact_mod_cast this
  linarith

/-! ## Normalized provider records

`WhoopRec` models the dictionary returned by `WhoopClient.get_all` as read by
the aggregator (`aggregator.py` reads `recovery_score` and `spo2` for scoring
and the nine columns of `_save_whoop` for persistence).  Extra normalized keys
that no claim depends on (`sleep_performance`, per-stage minutes, ...) are
omitted.  `OuraRec` likewise models the dictionary returned by
`OuraClient.get_all` as read by the aggregator. -/

structure WhoopRec where
  recovery_score : Option ℚ := none
  hrv_rmssd : Option ℚ := none
  rhr : Option ℚ := none
  spo2 : Option ℚ := none
  skin_temp_c : Option ℚ := none
  sleep_score : Option ℚ := none
  sleep_duration_min : Option ℚ := none
  sleep_efficiency : Option ℚ := none
  workout_strain : Option ℚ := none
deriving DecidableEq

structure OuraRec where
  readiness_score : Option ℚ := none
  readiness_contributors : Option String := none
  sleep_score : Option ℚ := none
  sleep_contributors : Option String := none
  activity_score : Option ℚ := none
  activity_contributors : Option String := none
  stress_high : Option ℚ := none
  recovery_high : Option ℚ := none
  day_summary : Option String := none
  temperature_deviation : Option ℚ := none
  temperature_trend_deviation : Option ℚ := none
deriving DecidableEq

/-! ## Scoring (`aggregator.py`, `_composite_recovery` and `_training_readiness`) -/

/-- `_composite_recovery(whoop, oura)` from `aggregator.py` lines 27-41:
weighted average of the Whoop recovery score and the Oura readiness score;
either one alone if only one is present; `None` if neither. -/
def composite_recovery (whoop : WhoopRec) (oura : OuraRec) : Option ℚ :=
  match whoop.recovery_score, oura.readiness_score with
  | some w_score, some o_score => some (rnd1 (w_score * (1/2) + o_score * (1/2)))
  | some w_score, none => some (rnd1 w_score)
  | none, some o_score => some (rnd1 o_score)
  | none, none => none

/-- `_training_readiness(whoop, oura, composite)` from `aggregator.py` lines
44-75: the composite score penalized sequentially for stress, temperature
deviation and low SpO2, then clamped to [0, 100] and rounded to one decimal. -/
def training_readiness (whoop : WhoopRec) (oura : OuraRec) (composite : Option ℚ) :
    Option ℚ :=
  match composite with
  | none => none
  | some c =>
    let score := c
    let score := match oura.stress_high with
      | some stress => score - min 10 (stress * (5/4))
      | none => score
    let score := match oura.temperature_deviation with
      | some temp_dev => score - min 5 (|temp_dev| * 5)
      | none => score
    let score := match whoop.spo2 with
      | some sp => if sp < 95 then score - (95 - sp) * 2 else score
      | none => score
    some (rnd1 (max 0 (min 100 score)))

/-! Spec-form penalty terms (spec §4.3 step 3): each penalty is an independent
term, clamped on its own, and the terms are summed.  These definitions follow
the spec's wording; the refinement lemma below shows the sequential
subtractions in `_training_readiness` compute exactly this. -/

/-- Spec §4.3: stress penalty `min(10.0, stress_high_hours * 1.25)`, only
applied when the stress metric is present. -/
def specStressPenalty (oura : OuraRec) : ℚ :=
  match oura.stress_high with
  | some stress => min 10 (stress * (5/4))
  | none => 0

/-- Spec §4.3: temperature penalty `min(5.0, abs(temperature_deviation) * 5)`,
only when present. -/
def specTempPenalty (oura : OuraRec) : ℚ :=
  match oura.temperature_deviation with
  | some temp_dev => min 5 (|temp_dev| * 5)
  | none => 0

/-- Spec §4.3: SpO2 penalty `(95 - spo2) * 2` when present and below 95,
uncapped. -/
def specSpo2Penalty (whoop : WhoopRec) : ℚ :=
  match whoop.spo2 with
  | some sp => if sp < 95 then (95 - sp) * 2 else 0
  | none => 0

/-- The code's sequential penalty subtraction equals the spec's
independently-clamped-then-summed form. -/
theorem training_readiness_spec_form (whoop : WhoopRec) (oura : OuraRec) (c : ℚ) :
    training_readiness whoop oura (some c) =
      some (rnd1 (max 0 (min 100
        (c - specStressPenalty oura - specTempPenalty oura - specSpo2Penalty whoop)))) := by
  rcases hs : oura.stress_high with _ | s <;>
    rcases ht : oura.temperature_deviation with _ | td <;>
      rcases hp : whoop.spo2 with _ | sp <;>
        simp only [training_readiness, specStressPenalty, specTempPenalty,
          specSpo2Penalty, hs, ht, hp] <;>
        refine congrArg (fun x => some (rnd1 (max 0 (min 100 x)))) ?_ <;>
        (try split_ifs) <;> ring

theorem specStressPenalty_nonneg (oura : OuraRec)
    (hs : ∀ s, oura.stress_high = some s → 0 ≤ s) : 0 ≤ specStressPenalty oura := by
  rcases h : oura.stress_high with _ | s
  · simp [specStressPenalty, h]
  · have h0 := hs s h
    simp only [specStressPenalty, h]
    exact le_min (by norm_num) (by positivity)

theorem specTempPenalty_nonneg (oura : OuraRec) : 0 ≤ specTempPenalty oura := by
  rcases h : oura.temperature_deviation with _ | td
  · simp [specTempPenalty, h]
  · simp only [specTempPenalty, h]
    exact le_min (by norm_num) (by positivity)

theorem specSpo2Penalty_nonneg (whoop : WhoopRec) : 0 ≤ specSpo2Penalty whoop := by
  rcases h : whoop.spo2 with _ | sp
  · simp [specSpo2Penalty, h]
  · simp only [specSpo2Penalty, h]
    split
    · rename_i hlt; nlinarith
    · exact le_refl 0

/-! ## Aggregation pipeline (`aggregator.py`, `aggregate` and the `_save_*` helpers)

The two provider fetches (`WhoopClient().get_all()` / `OuraClient().get_all()`)
are external effects; `aggregate` is embedded parametrically over their
outcomes.  `FetchOutcome.authError` models the `except WhoopAuthError` /
`except OuraAuthError` arms, `FetchOutcome.fetchError` the generic
`except Exception` arms.  The SQLite tables written by the `_save_*` helpers
are modelled as association lists keyed by date, following the
`ON CONFLICT(date) DO UPDATE` statements in `aggregator.py` (the mismatch
between those statements and the schema actually declared in `db.py` is
settled separately by the `upsertAccepted` checker below). -/

inductive FetchOutcome (α : Type) where
  | ok (value : α)
  | authError (msg : String)
  | fetchError (msg : String)
deriving DecidableEq

/-- Upsert into an association list: replace the row for `key` if present
(`DO UPDATE` with every column set from `excluded`), else append a new row. -/
def upsertByKey {α : Type} (rows : List (String × α)) (key : String) (val : α) :
    List (String × α) :=
  if rows.any (fun r => r.1 == key) then
    rows.map (fun r => if r.1 == key then (key, val) else r)
  else rows ++ [(key, val)]

structure DBState where
  whoop_metrics : List (String × WhoopRec) := []
  oura_metrics : List (String × OuraRec) := []
  daily_scores : List (String × Option ℚ × Option ℚ) := []
deriving DecidableEq

/-- `_save_whoop(today, w)`: upsert the normalized Whoop fields keyed by date
(the `raw_json` audit column is not modelled). -/
def save_whoop (dbs : DBState) (today : String) (w : WhoopRec) : DBState :=
  { dbs with whoop_metrics := upsertByKey dbs.whoop_metrics today w }

/-- `_save_oura(today, o)`: upsert the normalized Oura fields keyed by date. -/
def save_oura (dbs : DBState) (today : String) (o : OuraRec) : DBState :=
  { dbs with oura_metrics := upsertByKey dbs.oura_metrics today o }

/-- `_save_daily_scores(today, composite, training)`. -/
def save_daily_scores (dbs : DBState) (today : String)
    (composite training : Option ℚ) : DBState :=
  { dbs with daily_scores := upsertByKey dbs.daily_scores today (composite, training) }

/-- `whoop and not all(v is None for k, v in whoop.items() if not k.startswith("_"))`:
the snapshot is persisted only when some non-metadata field is non-null.  A
failed fetch leaves `whoop = {}` (falsy), which this test also rejects. -/
def WhoopRec.hasData (w : WhoopRec) : Bool :=
  w.recovery_score.isSome || w.hrv_rmssd.isSome || w.rhr.isSome || w.spo2.isSome ||
  w.skin_temp_c.isSome || w.sleep_score.isSome || w.sleep_duration_min.isSome ||
  w.sleep_efficiency.isSome || w.workout_strain.isSome

def OuraRec.hasData (o : OuraRec) : Bool :=
  o.readiness_score.isSome || o.readiness_contributors.isSome || o.sleep_score.isSome ||
  o.sleep_contributors.isSome || o.activity_score.isSome || o.activity_contributors.isSome ||
  o.stress_high.isSome || o.recovery_high.isSome || o.day_summary.isSome ||
  o.temperature_deviation.isSome || o.temperature_trend_deviation.isSome

structure AggResult where
  date : String
  whoop : WhoopRec
  oura : OuraRec
  composite_recovery : Option ℚ
  training_readiness : Option ℚ
  errors : List String
deriving DecidableEq

/-- `aggregate()` from `aggregator.py` lines 82-133, parametric over the date
and the two fetch outcomes.  Each failed fetch contributes one error string
and leaves the corresponding record empty; scores are computed from whatever
remains; persistence is conditional exactly as in the source. -/
def aggregate (today : String) (whoopFetch : FetchOutcome WhoopRec)
    (ouraFetch : FetchOutcome OuraRec) (dbs : DBState) : AggResult × DBState :=
  let whoop : WhoopRec := match whoopFetch with
    | .ok w => w
    | .authError _ => {}
    | .fetchError _ => {}
  let whoopErrors : List String := match whoopFetch with
    | .ok _ => []
    | .authError m => [s!"Whoop: {m}"]
    | .fetchError m => [s!"Whoop error: {m}"]
  let oura : OuraRec := match ouraFetch with
    | .ok o => o
    | .authError _ => {}
    | .fetchError _ => {}
  let ouraErrors : List String := match ouraFetch with
    | .ok _ => []
    | .authError m => [s!"Oura: {m}"]
    | .fetchError m => [s!"Oura error: {m}"]
  let errors := whoopErrors ++ ouraErrors
  let composite := composite_recovery whoop oura
  let training := training_readiness whoop oura composite
  let dbs1 := if whoop.hasData then save_whoop dbs today whoop else dbs
  let dbs2 := if oura.hasData then save_oura dbs1 today oura else dbs1
  let dbs3 := if composite.isSome || training.isSome
    then save_daily_scores dbs2 today composite training else dbs2
  ({ date := today, whoop := whoop, oura := oura, composite_recovery := composite,
     training_readiness := training, errors := errors }, dbs3)

/-! ## Credential lifecycle (`auth/flask_server.py`)

External HTTP effects (the token-endpoint POSTs of `_exchange_code` and
`refresh_token`) are passed in as `Option TokenData`: `none` models a raised
exception (network failure, or a non-2xx response turned into an exception by
`raise_for_status`), `some td` a 2xx response with JSON body `td`.  Time
(`time.time()`) is passed as an integer parameter `now`. -/

/-- A row of the `oauth_tokens` table (`db.py`), keyed by (chat_id, provider). -/
structure TokenRec where
  chat_id : ℤ
  provider : String
  access_token : String
  refresh_token : Option String
  expires_at : ℤ
  updated_at : ℤ
deriving DecidableEq

abbrev TokenStore := List TokenRec

def lookupToken (st : TokenStore) (chatId : ℤ) (prov : String) : Option TokenRec :=
  st.find? (fun r => r.chat_id == chatId && r.provider == prov)

/-- `INSERT ... ON CONFLICT(chat_id, provider) DO UPDATE` on `oauth_tokens`
(this statement does match the declared schema, unlike the metrics writes). -/
def upsertToken (st : TokenStore) (rec : TokenRec) : TokenStore :=
  if st.any (fun r => r.chat_id == rec.chat_id && r.provider == rec.provider) then
    st.map (fun r =>
      if r.chat_id == rec.chat_id && r.provider == rec.provider then rec else r)
  else st ++ [rec]

/-- The JSON body of a token-endpoint response, as consumed by `_save_token`
(`token_data["access_token"]`, `token_data.get("refresh_token")`,
`token_data.get("expires_in", 3600)`). -/
structure TokenData where
  access_token : Option String
  refresh_token : Option String
  expires_in : Option ℤ
deriving DecidableEq

/-- `_save_token(chat_id, provider, token_data)` from `flask_server.py` lines
36-57.  A missing `access_token` key raises `KeyError` inside the `db()`
transaction, which rolls back: modelled as `none` (nothing stored).  Note the
upsert sets `refresh_token = excluded.refresh_token`, the verbatim value of
`token_data.get("refresh_token")` — `None` when the provider omitted it. -/
def save_token (st : TokenStore) (now : ℤ) (chatId : ℤ) (prov : String)
    (td : TokenData) : Option TokenStore :=
  match td.access_token with
  | none => none
  | some a =>
    some (upsertToken st
      { chat_id := chatId, provider := prov, access_token := a,
        refresh_token := td.refresh_token,
        expires_at := now + td.expires_in.getD 3600, updated_at := now })

/-- `refresh_token(chat_id, provider)` from `flask_server.py` lines 121-164,
parametric over the provider's response.  Returns the new access token (or
`none`) together with the resulting token store. -/
def refresh_token (st : TokenStore) (now : ℤ) (chatId : ℤ) (prov : String)
    (resp : Option TokenData) : Option String × TokenStore :=
  match lookupToken st chatId prov with
  | none => (none, st)
  | some row =>
    match row.refresh_token with
    | none => (none, st)
    | some _ =>
      if prov == "whoop" || prov == "oura" then
        match resp with
        | none => (none, st)
        | some td =>
          match save_token st now chatId prov td with
          | none => (none, st)
          | some st2 => (td.access_token, st2)
      else (none, st)

/-- `get_valid_token(chat_id, provider)` from `flask_server.py` lines 167-182.
The refresh branch is guarded by `row["expires_at"] and now >= row["expires_at"] - 60`;
Python truthiness of the integer column is modelled as `≠ 0`. -/
def get_valid_token (st : TokenStore) (now : ℤ) (chatId : ℤ) (prov : String)
    (resp : Option TokenData) : Option String × TokenStore :=
  match lookupToken st chatId prov with
  | none => (none, st)
  | some row =>
    if row.expires_at ≠ 0 ∧ now ≥ row.expires_at - 60 then
      refresh_token st now chatId prov resp
    else (some row.access_token, st)

/-! ## OAuth state store and the callback route -/

/-- A row of the `oauth_states` table. -/
structure StateRec where
  state : String
  provider : String
  chat_id : ℤ
deriving DecidableEq

abbrev StateStore := List StateRec

def lookupState (ss : StateStore) (state : String) : Option (String × ℤ) :=
  (ss.find? (fun r => r.state == state)).map (fun r => (r.provider, r.chat_id))

/-- `_pop_state(state)` from `flask_server.py` lines 24-33: return the
(provider, chat_id) for the state and delete the row; `none` and the store
unchanged if absent. -/
def pop_state (ss : StateStore) (state : String) : Option (String × ℤ) × StateStore :=
  match ss.find? (fun r => r.state == state) with
  | some row => (some (row.provider, row.chat_id), ss.filter (fun q => !(q.state == state)))
  | none => (none, ss)

/-- The HTTP responses `whoop_callback` can produce. -/
inductive CallbackResp where
  /-- "Whoop connected!", HTTP 200. -/
  | success
  /-- "Invalid state", HTTP 400. -/
  | invalidState
  /-- `error` query parameter present: "Whoop auth error", HTTP 400. -/
  | providerError (msg : String)
  /-- code exchange or token save raised: HTTP 500. -/
  | exchangeError
deriving DecidableEq

/-- The `/callback/whoop` route from `flask_server.py` lines 188-209 (the Oura
route is structurally identical).  `error` is the `error` query parameter;
`exchangeResp` is the outcome of the `_exchange_code` POST. -/
def whoop_callback (ss : StateStore) (ts : TokenStore) (now : ℤ)
    (state _code : String) (error : Option String) (exchangeResp : Option TokenData) :
    CallbackResp × StateStore × TokenStore :=
  match error with
  | some e => (.providerError e, ss, ts)
  | none =>
    match pop_state ss state with
    | (none, ss2) => (.invalidState, ss2, ts)
    | (some result, ss2) =>
      if result.1 ≠ "whoop" then (.invalidState, ss2, ts)
      else
        match exchangeResp with
        | none => (.exchangeError, ss2, ts)
        | some td =>
          match save_token ts now result.2 "whoop" td with
          | none => (.exchangeError, ss2, ts)
          | some ts2 => (.success, ss2, ts2)

/-! ## Provider clients (`clients/whoop_client.py`, `clients/oura_client.py`)

Each REST call is passed in as `Except String (List _)`: `.error` models any
exception from the request (a 401 turned into `WhoopAuthError`/`OuraAuthError`
by `_get`, a `raise_for_status` failure, or a network error), `.ok records`
the decoded `records` / `data` array of a 2xx response.  `get_all` is given
the Python-faithful result type `Except String _` — the type of a function
that could raise `WhoopAuthError` — so that "never raises" is a provable
statement, not a modelling assumption. -/

/-- The `stage_summary` sub-object of a Whoop sleep record's score. -/
structure WhoopStageSummary where
  total_light_sleep_time_milli : Option ℚ := none
  total_slow_wave_sleep_time_milli : Option ℚ := none
  total_rem_sleep_time_milli : Option ℚ := none
deriving DecidableEq

/-- The `score` sub-object of a Whoop API record (recovery, sleep and workout
records share one untyped dict shape in the source; fields no claim touches
are omitted). -/
structure WhoopScorePayload where
  recovery_score : Option ℚ := none
  hrv_rmssd_milli : Option ℚ := none
  resting_heart_rate : Option ℚ := none
  spo2_percentage : Option ℚ := none
  skin_temp_celsius : Option ℚ := none
  sleep_efficiency_percentage : Option ℚ := none
  stage_summary : Option WhoopStageSummary := none
  strain : Option ℚ := none
deriving DecidableEq

/-- One element of a Whoop endpoint's `records` array. -/
structure WhoopRecord where
  score : Option WhoopScorePayload := none
deriving DecidableEq

/-- `WhoopClient._headers`: raises `WhoopAuthError` when `get_valid_token`
returns a falsy token. -/
def whoop_headers (token : Option String) : Except String String :=
  match token with
  | none => .error "No valid Whoop token. Run /connect_whoop first."
  | some tk => .ok tk

/-- `WhoopClient._latest(endpoint)`: first `_get` with today's window, falling
back to an unwindowed `_get`; the whole body is inside
`try ... except Exception: return None`, so every raised error — including the
auth error from `_headers`/`_get` — is swallowed. -/
def whoop_latest (token : Option String)
    (resp1 resp2 : Except String (List WhoopRecord)) : Option WhoopRecord :=
  match whoop_headers token with
  | .error _ => none
  | .ok _ =>
    match resp1 with
    | .error _ => none
    | .ok records =>
      match records.head? with
      | some r => some r
      | none =>
        match resp2 with
        | .error _ => none
        | .ok records2 => records2.head?

/-- `WhoopClient.get_workout`: one windowed `_get`, same catch-all. -/
def whoop_workout (token : Option String)
    (resp : Except String (List WhoopRecord)) : Option WhoopRecord :=
  match whoop_headers token with
  | .error _ => none
  | .ok _ =>
    match resp with
    | .error _ => none
    | .ok records => records.head?

/-- `WhoopClient.get_all()` from `whoop_client.py` lines 76-121, restricted to
the normalized keys the aggregator reads (the additional keys it produces —
`sleep_performance`, per-stage minutes, `_raw`, ... — are claim-irrelevant).
The client never sets a `sleep_score` key, so that field is always `none`. -/
def whoop_get_all (token : Option String)
    (recResp1 recResp2 slpResp1 slpResp2 wkResp : Except String (List WhoopRecord)) :
    Except String WhoopRec :=
  let recovery := (whoop_latest token recResp1 recResp2).getD {}
  let sleep := (whoop_latest token slpResp1 slpResp2).getD {}
  let workout := (whoop_workout token wkResp).getD {}
  let score := recovery.score.getD {}
  let sleepScore := sleep.score.getD {}
  let stage := sleepScore.stage_summary.getD {}
  let totalSleepMilli := stage.total_light_sleep_time_milli.getD 0 +
    stage.total_slow_wave_sleep_time_milli.getD 0 +
    stage.total_rem_sleep_time_milli.getD 0
  let workoutScore := workout.score.getD {}
  .ok
    { recovery_score := score.recovery_score
      hrv_rmssd := score.hrv_rmssd_milli
      rhr := score.resting_heart_rate
      spo2 := score.spo2_percentage
      skin_temp_c := score.skin_temp_celsius
      sleep_score := none
      sleep_duration_min :=
        if totalSleepMilli ≠ 0 then some (rnd1 (totalSleepMilli / 60000)) else none
      sleep_efficiency := sleepScore.sleep_efficiency_percentage
      workout_strain := workoutScore.strain }

/-- One element of an Oura endpoint's `data` array (daily readiness, sleep,
activity and stress records share one untyped dict shape). -/
structure OuraDailyRecord where
  score : Option ℚ := none
  contributors : Option String := none
  temperature_deviation : Option ℚ := none
  temperature_trend_deviation : Option ℚ := none
  stress_high : Option ℚ := none
  recovery_high : Option ℚ := none
  day_summary : Option String := none
deriving DecidableEq

/-- `OuraClient._headers`: the source calls `get_valid_token("oura")`, passing
a single positional argument to the two-parameter
`get_valid_token(chat_id, provider)`.  Every call therefore raises `TypeError`
before the token store is even consulted — modelled as an unconditional
error. -/
def oura_headers (_token : Option String) : Except String String :=
  .error "TypeError: get_valid_token() missing 1 required positional argument"

/-- `OuraClient._fetch_today(endpoint, fallback_days)`: a same-day query with
an optional widened fallback window taking the most recent (`items[-1]`)
record; the whole body is inside `try ... except Exception: return None`. -/
def oura_fetch_today (token : Option String)
    (resp1 : Except String (List OuraDailyRecord)) (fallbackDays : ℕ)
    (resp2 : Except String (List OuraDailyRecord)) : Option OuraDailyRecord :=
  match oura_headers token with
  | .error _ => none
  | .ok _ =>
    match resp1 with
    | .error _ => none
    | .ok items =>
      match items.head? with
      | some r => some r
      | none =>
        if fallbackDays > 0 then
          match resp2 with
          | .error _ => none
          | .ok items2 => items2.getLast?
        else none

/-- `OuraClient.get_all()` from `oura_client.py` lines 80-121, restricted to
the keys the aggregator reads (`steps`, `active_calories`, `readiness_level`,
`spo2_avg` and `_raw` are claim-irrelevant).  `stress_high`/`recovery_high`
are converted from seconds to hours and rounded to one decimal. -/
def oura_get_all (token : Option String)
    (rdResp1 rdResp2 slResp1 slResp2 acResp1 acResp2 stResp1 stResp2 :
      Except String (List OuraDailyRecord)) : Except String OuraRec :=
  let readiness := (oura_fetch_today token rdResp1 0 rdResp2).getD {}
  let sleep := (oura_fetch_today token slResp1 0 slResp2).getD {}
  let activity := (oura_fetch_today token acResp1 2 acResp2).getD {}
  let stress := (oura_fetch_today token stResp1 0 stResp2).getD {}
  .ok
    { readiness_score := readiness.score
      readiness_contributors := readiness.contributors
      sleep_score := sleep.score
      sleep_contributors := sleep.contributors
      activity_score := activity.score
      activity_contributors := activity.contributors
      stress_high := match stress.stress_high with
        | some s => some (rnd1 (s / 3600))
        | none => none
      recovery_high := match stress.recovery_high with
        | some s => some (rnd1 (s / 3600))
        | none => none
      day_summary := stress.day_summary
      temperature_deviation := readiness.temperature_deviation
      temperature_trend_deviation := readiness.temperature_trend_deviation }

/-! ## SQLite upsert statements versus the declared schema (`db.py`)

SQLite prepares an `INSERT ... ON CONFLICT(cols) DO UPDATE` only if the
conflict-target columns exactly identify a declared `PRIMARY KEY` or `UNIQUE`
index of the table ("ON CONFLICT clause does not match any PRIMARY KEY or
unique index" otherwise), and the insert must supply every `NOT NULL` column
that has neither a default nor rowid autoincrement.  `upsertAccepted` checks
both conditions for a statement against a table schema. -/

structure TableSchema where
  name : String
  columns : List String
  /-- `NOT NULL` columns with no default value and no autoincrement. -/
  requiredOnInsert : List String
  /-- column sets of the PRIMARY KEY and of each UNIQUE constraint. -/
  uniqueKeys : List (List String)
deriving DecidableEq

structure UpsertStmt where
  table : String
  insertColumns : List String
  conflictTarget : List String
deriving DecidableEq

def sameColumnSet (a b : List String) : Bool :=
  a.all (fun c => b.contains c) && b.all (fun c => a.contains c)

def upsertAccepted (stmt : UpsertStmt) (schema : TableSchema) : Bool :=
  stmt.table == schema.name &&
  stmt.insertColumns.all (fun c => schema.columns.contains c) &&
  schema.uniqueKeys.any (fun u => sameColumnSet stmt.conflictTarget u) &&
  schema.requiredOnInsert.all (fun c => stmt.insertColumns.contains c)

/-- `whoop_metrics` as declared by `init_db` in `db.py` lines 57-73. -/
def whoopMetricsSchema : TableSchema :=
  { name := "whoop_metrics"
    columns := ["id", "chat_id", "date", "recovery_score", "hrv_rmssd", "rhr",
      "spo2", "skin_temp_c", "sleep_score", "sleep_duration_min",
      "sleep_efficiency", "workout_strain", "raw_json", "created_at"]
    requiredOnInsert := ["chat_id", "date"]
    uniqueKeys := [["id"], ["chat_id", "date"]] }

/-- `oura_metrics` as declared by `init_db` in `db.py` lines 76-94. -/
def ouraMetricsSchema : TableSchema :=
  { name := "oura_metrics"
    columns := ["id", "chat_id", "date", "readiness_score",
      "readiness_contributors", "sleep_score", "sleep_contributors",
      "activity_score", "activity_contributors", "stress_high", "recovery_high",
      "day_summary", "temperature_deviation", "temperature_trend_deviation",
      "raw_json", "created_at"]
    requiredOnInsert := ["chat_id", "date"]
    uniqueKeys := [["id"], ["chat_id", "date"]] }

/-- `daily_scores` as declared by `init_db` in `db.py` lines 97-108. -/
def dailyScoresSchema : TableSchema :=
  { name := "daily_scores"
    columns := ["id", "chat_id", "date", "composite_recovery",
      "training_readiness", "whoop_weight", "oura_weight", "notes", "created_at"]
    requiredOnInsert := ["chat_id", "date"]
    uniqueKeys := [["id"], ["chat_id", "date"]] }

/-- `oauth_tokens` as declared by `init_db` in `db.py` lines 38-46. -/
def oauthTokensSchema : TableSchema :=
  { name := "oauth_tokens"
    columns := ["chat_id", "provider", "access_token", "refresh_token",
      "expires_at", "updated_at"]
    requiredOnInsert := ["chat_id", "provider", "access_token"]
    uniqueKeys := [["chat_id", "provider"]] }

/-- The statement executed by `_save_whoop` (`aggregator.py` lines 143-160). -/
def saveWhoopStmt : UpsertStmt :=
  { table := "whoop_metrics"
    insertColumns := ["date", "recovery_score", "hrv_rmssd", "rhr", "spo2",
      "skin_temp_c", "sleep_score", "sleep_duration_min", "sleep_efficiency",
      "workout_strain", "raw_json"]
    conflictTarget := ["date"] }

/-- The statement executed by `_save_oura` (`aggregator.py` lines 181-201). -/
def saveOuraStmt : UpsertStmt :=
  { table := "oura_metrics"
    insertColumns := ["date", "readiness_score", "readiness_contributors",
      "sleep_score", "sleep_contributors", "activity_score",
      "activity_contributors", "stress_high", "recovery_high", "day_summary",
      "temperature_deviation", "temperature_trend_deviation", "raw_json"]
    conflictTarget := ["date"] }

/-- The statement executed by `_save_daily_scores` (`aggregator.py` lines 223-230). -/
def saveDailyScoresStmt : UpsertStmt :=
  { table := "daily_scores"
    insertColumns := ["date", "composite_recovery", "training_readiness"]
    conflictTarget := ["date"] }

/-- The statement executed by `_save_token` (`flask_server.py` lines 39-48). -/
def saveTokenStmt : UpsertStmt :=
  { table := "oauth_tokens"
    insertColumns := ["chat_id", "provider", "access_token", "refresh_token",
      "expires_at", "updated_at"]
    conflictTarget := ["chat_id", "provider"] }

/-! ## Claims -/

/-- C1: composite recovery is `round((a+b)/2, 1)` when both the Whoop recovery
score and the Oura readiness score are present, `round(a, 1)` with only the
first, `round(b, 1)` with only the second, and undefined (none) with neither. -/
theorem C1_composite_recovery_formula (w : WhoopRec) (o : OuraRec) :
    composite_recovery w o =
      match w.recovery_score, o.readiness_score with
      | some a, some b => some (rnd1 ((a + b) / 2))
      | some a, none => some (rnd1 a)
      | none, some b => some (rnd1 b)
      | none, none => none := by
  rcases hw : w.recovery_score with _ | a <;>
    rcases ho : o.readiness_score with _ | b <;>
      simp only [composite_recovery, hw, ho] <;>
      first
        | rfl
        | (refine congrArg (fun x => some (rnd1 x)) ?_; ring)

theorem pyRound_intCast (n : ℤ) : pyRound (n : ℚ) = n := by
  unfold pyRound
  rw [Int.floor_intCast]
  norm_num

theorem rnd1_intCast (n : ℤ) : rnd1 (n : ℚ) = n := by
  unfold rnd1
  have h : ((n : ℚ) * 10) = ((n * 10 : ℤ) : ℚ) := by push_cast; ring
  rw [h, pyRound_intCast]
  push_cast
  ring

/-- The spec's scenario (§8): recovery 70 and readiness 50 give composite 60.0. -/
theorem scenario_composite :
    composite_recovery { recovery_score := some 70, spo2 := some 97 }
      { readiness_score := some 50, stress_high := some 2,
        temperature_deviation := some (1/10) } = some 60 := by
  have h60 : rnd1 (60 : ℚ) = 60 := by simpa using rnd1_intCast 60
  simp only [composite_recovery]
  norm_num [h60]

/-- The spec's scenario (§8): with stress 2h, temperature deviation 0.1 and
SpO2 97, training readiness is 60.0 - 2.5 - 0.5 - 0 = 57.0. -/
theorem scenario_training :
    training_readiness { recovery_score := some 70, spo2 := some 97 }
      { readiness_score := some 50, stress_high := some 2,
        temperature_deviation := some (1/10) }
      (composite_recovery { recovery_score := some 70, spo2 := some 97 }
        { readiness_score := some 50, stress_high := some 2,
          temperature_deviation := some (1/10) }) = some 57 := by
  have h57 : rnd1 (57 : ℚ) = 57 := by simpa using rnd1_intCast 57
  have habs : |(1/10 : ℚ)| = 1/10 := abs_of_nonneg (by norm_num)
  rw [scenario_composite]
  simp only [training_readiness]
  norm_num [habs, min_def, max_def, h57]

/-- C2: when composite recovery is defined, training readiness subtracts the
capped stress penalty, the capped temperature penalty and the uncapped SpO2
penalty, clamps to [0, 100] and rounds to one decimal; when the composite is
undefined so is training readiness; and on the spec's concrete scenario
(recovery 70, readiness 50, stress 2h, temperature deviation 0.1, SpO2 97)
the composite is 60.0 and training readiness is 57.0. -/
theorem C2_training_readiness_formula :
    (∀ (w : WhoopRec) (o : OuraRec), training_readiness w o none = none) ∧
    (∀ (w : WhoopRec) (o : OuraRec) (c : ℚ),
      training_readiness w o (some c) =
        some (rnd1 (max 0 (min 100
          (c - specStressPenalty o - specTempPenalty o - specSpo2Penalty w))))) ∧
    (composite_recovery { recovery_score := some 70, spo2 := some 97 }
        { readiness_score := some 50, stress_high := some 2,
          temperature_deviation := some (1/10) } = some 60 ∧
      training_readiness { recovery_score := some 70, spo2 := some 97 }
        { readiness_score := some 50, stress_high := some 2,
          temperature_deviation := some (1/10) }
        (composite_recovery { recovery_score := some 70, spo2 := some 97 }
          { readiness_score := some 50, stress_high := some 2,
            temperature_deviation := some (1/10) }) = some 57) := by
  exact ⟨fun w o => rfl, fun w o c => training_readiness_spec_form w o c,
    scenario_composite, scenario_training⟩

theorem composite_recovery_bounds (w : WhoopRec) (o : OuraRec) (c : ℚ)
    (hw : ∀ a, w.recovery_score = some a → 0 ≤ a ∧ a ≤ 100)
    (ho : ∀ b, o.readiness_score = some b → 0 ≤ b ∧ b ≤ 100)
    (hc : composite_recovery w o = some c) :
    0 ≤ c ∧ c ≤ 100 ∧ ∃ k : ℤ, c = (k : ℚ) / 10 := by
  have key : ∀ y : ℚ, 0 ≤ y → y ≤ 100 → rnd1 y = c →
      0 ≤ c ∧ c ≤ 100 ∧ ∃ k : ℤ, c = (k : ℚ) / 10 := by
    intro y h0 h100 hcy
    subst hcy
    refine ⟨?_, ?_, pyRound (y * 10), rfl⟩
    · have h1 : ((0 : ℤ) : ℚ) / 10 ≤ y := by norm_num [h0]
      have := tenth_le_rnd1 0 y h1
      simpa using this
    · have h1 : y ≤ ((1000 : ℤ) : ℚ) / 10 := by norm_num [h100]
      have := rnd1_le_tenth y 1000 h1
      norm_num at this
      exact this
  rcases hrw : w.recovery_score with _ | a <;>
    rcases hro : o.readiness_score with _ | b <;>
      simp only [composite_recovery, hrw, hro] at hc
  · exact Option.noConfusion hc
  · obtain ⟨hb0, hb100⟩ := ho b hro
    exact key b hb0 hb100 (Option.some.inj hc)
  · obtain ⟨ha0, ha100⟩ := hw a hrw
    exact key a ha0 ha100 (Option.some.inj hc)
  · obtain ⟨ha0, ha100⟩ := hw a hrw
    obtain ⟨hb0, hb100⟩ := ho b hro
    exact key (a * (1/2) + b * (1/2)) (by linarith) (by linarith) (Option.some.inj hc)

/-- C9: whenever training readiness is defined (for metric values in their
documented domains: scores on the 0-100 scale, stress hours nonnegative), it
lies in [0, 100] and never exceeds composite recovery. -/
theorem C9_training_le_composite (w : WhoopRec) (o : OuraRec) (c t : ℚ)
    (hw : ∀ a, w.recovery_score = some a → 0 ≤ a ∧ a ≤ 100)
    (ho : ∀ b, o.readiness_score = some b → 0 ≤ b ∧ b ≤ 100)
    (hs : ∀ s, o.stress_high = some s → 0 ≤ s)
    (hc : composite_recovery w o = some c)
    (ht : training_readiness w o (composite_recovery w o) = some t) :
    0 ≤ t ∧ t ≤ 100 ∧ t ≤ c := by
  obtain ⟨hc0, hc100, k, hck⟩ := composite_recovery_bounds w o c hw ho hc
  rw [hc, training_readiness_spec_form] at ht
  have htt : t = rnd1 (max 0 (min 100
      (c - specStressPenalty o - specTempPenalty o - specSpo2Penalty w))) :=
    (Option.some.inj ht).symm
  have hp1 := specStressPenalty_nonneg o hs
  have hp2 := specTempPenalty_nonneg o
  have hp3 := specSpo2Penalty_nonneg w
  have hXc : max 0 (min 100
      (c - specStressPenalty o - specTempPenalty o - specSpo2Penalty w)) ≤ c := by
    apply max_le hc0
    have := min_le_right (100 : ℚ)
      (c - specStressPenalty o - specTempPenalty o - specSpo2Penalty w)
    linarith
  have ht0 : 0 ≤ t := by
    rw [htt]
    have h1 : ((0 : ℤ) : ℚ) / 10 ≤ max 0 (min 100
        (c - specStressPenalty o - specTempPenalty o - specSpo2Penalty w)) := by
      have := le_max_left (0 : ℚ) (min 100
        (c - specStressPenalty o - specTempPenalty o - specSpo2Penalty w))
      norm_num
    have := tenth_le_rnd1 0 _ h1
    simpa using this
  have htc : t ≤ c := by
    rw [htt, hck]
    refine rnd1_le_tenth _ k ?_
    rw [← hck]
    exact hXc
  exact ⟨ht0, by linarith, htc⟩

/-- C9 witness: the theorem applied at the spec's scenario (recovery 70,
readiness 50, stress 2h), where the composite is 60.0 and training readiness
57.0. -/
theorem C9_training_le_composite_witness :
    0 ≤ (57 : ℚ) ∧ (57 : ℚ) ≤ 100 ∧ (57 : ℚ) ≤ 60 :=
  C9_training_le_composite
    { recovery_score := some 70, spo2 := some 97 }
    { readiness_score := some 50, stress_high := some 2,
      temperature_deviation := some (1/10) }
    60 57
    (fun a ha => by injection ha with h; subst h; constructor <;> norm_num)
    (fun b hb => by injection hb with h; subst h; constructor <;> norm_num)
    (fun s hsx => by injection hsx with h; subst h; norm_num)
    scenario_composite scenario_training

/-- C3: when both provider fetches fail, `aggregate` returns a well-formed
result — the date, two empty provider records, null composite recovery, null
training readiness, and one error string per failed provider — and writes
nothing to the database. -/
theorem C3_aggregate_total_failure (today : String) (wf : FetchOutcome WhoopRec)
    (ouraF : FetchOutcome OuraRec) (dbs : DBState)
    (hw : ∀ w, wf ≠ FetchOutcome.ok w) (ho : ∀ o, ouraF ≠ FetchOutcome.ok o) :
    (aggregate today wf ouraF dbs).1.date = today ∧
    (aggregate today wf ouraF dbs).1.whoop = {} ∧
    (aggregate today wf ouraF dbs).1.oura = {} ∧
    (aggregate today wf ouraF dbs).1.composite_recovery = none ∧
    (aggregate today wf ouraF dbs).1.training_readiness = none ∧
    (aggregate today wf ouraF dbs).1.errors.length = 2 ∧
    (aggregate today wf ouraF dbs).2 = dbs := by
  cases wf with
  | ok w => exact absurd rfl (hw w)
  | authError mw =>
    cases ouraF with
    | ok o => exact absurd rfl (ho o)
    | authError mo => exact ⟨rfl, rfl, rfl, rfl, rfl, rfl, rfl⟩
    | fetchError mo => exact ⟨rfl, rfl, rfl, rfl, rfl, rfl, rfl⟩
  | fetchError mw =>
    cases ouraF with
    | ok o => exact absurd rfl (ho o)
    | authError mo => exact ⟨rfl, rfl, rfl, rfl, rfl, rfl, rfl⟩
    | fetchError mo => exact ⟨rfl, rfl, rfl, rfl, rfl, rfl, rfl⟩

/-- C3 witness: a concrete doubly-failed run returns two error strings, null
scores and leaves the database untouched. -/
theorem C3_aggregate_total_failure_witness :
    (aggregate "2026-10-12" (FetchOutcome.authError "no valid token")
        (FetchOutcome.fetchError "timed out") {}).1.composite_recovery = none ∧
    (aggregate "2026-10-12" (FetchOutcome.authError "no valid token")
        (FetchOutcome.fetchError "timed out") {}).1.errors.length = 2 ∧
    (aggregate "2026-10-12" (FetchOutcome.authError "no valid token")
        (FetchOutcome.fetchError "timed out") {}).2 = {} :=
  ⟨(C3_aggregate_total_failure "2026-10-12" _ _ {}
      (fun _ h => FetchOutcome.noConfusion h)
      (fun _ h => FetchOutcome.noConfusion h)).2.2.2.1,
   (C3_aggregate_total_failure "2026-10-12" _ _ {}
      (fun _ h => FetchOutcome.noConfusion h)
      (fun _ h => FetchOutcome.noConfusion h)).2.2.2.2.2.1,
   (C3_aggregate_total_failure "2026-10-12" _ _ {}
      (fun _ h => FetchOutcome.noConfusion h)
      (fun _ h => FetchOutcome.noConfusion h)).2.2.2.2.2.2⟩

/-- C4: the claim's upsert semantics never run — SQLite rejects all three
metric upsert statements, because their `ON CONFLICT(date)` target matches no
unique index of the tables declared in `db.py` (the unique key is
`(chat_id, date)`) and the inserts omit the `NOT NULL` column `chat_id`.  The
token-store upsert, whose statement does match its schema, shows the checker
accepts well-formed upserts. -/
theorem C4_metric_upserts_rejected_by_schema :
    upsertAccepted saveWhoopStmt whoopMetricsSchema = false ∧
    upsertAccepted saveOuraStmt ouraMetricsSchema = false ∧
    upsertAccepted saveDailyScoresStmt dailyScoresSchema = false ∧
    upsertAccepted saveTokenStmt oauthTokensSchema = true := by
  refine ⟨?_, ?_, ?_, ?_⟩ <;> rfl

theorem find_state_filter_none (ss : StateStore) (s : String) :
    (ss.filter (fun q => !(q.state == s))).find? (fun r => r.state == s) = none := by
  rw [List.find?_eq_none]
  intro x hx
  have hmem := (List.mem_filter.mp hx).2
  simp only [Bool.not_eq_true', beq_eq_false_iff_ne, ne_eq] at hmem
  simp only [beq_iff_eq]
  exact hmem

theorem lookupState_pop_self (ss : StateStore) (s : String) :
    lookupState (pop_state ss s).2 s = none := by
  unfold pop_state
  rcases hf : ss.find? (fun r => r.state == s) with _ | row
  · simp [lookupState, hf]
  · simp [lookupState, hf, find_state_filter_none]

theorem pop_state_of_find_none (ss : StateStore) (s : String)
    (h : ss.find? (fun r => r.state == s) = none) : pop_state ss s = (none, ss) := by
  unfold pop_state
  rw [h]

theorem whoop_callback_store_eq (ss : StateStore) (ts : TokenStore) (now : ℤ)
    (s cd : String) (exch : Option TokenData) :
    (whoop_callback ss ts now s cd none exch).2.1 = (pop_state ss s).2 := by
  unfold whoop_callback
  rcases hp : pop_state ss s with ⟨res, ss2⟩
  rcases res with _ | pr
  · rfl
  · dsimp only
    split
    · rfl
    · rcases exch with _ | td
      · rfl
      · dsimp only
        rcases hsv : save_token ts now pr.2 "whoop" td with _ | ts2 <;> rfl

/-- C5: after the OAuth callback has run `completeAuthorization` once on a
state (the branch with no provider `error` parameter, which performs the state
lookup), the state row is gone — regardless of provider match or of the
success or failure of the code exchange — and a second invocation with the
same state fails with the invalid-state response. -/
theorem C5_state_single_use (ss : StateStore) (ts ts2 : TokenStore)
    (now now2 : ℤ) (s cd cd2 : String) (exch exch2 : Option TokenData) :
    lookupState (whoop_callback ss ts now s cd none exch).2.1 s = none ∧
    (whoop_callback (whoop_callback ss ts now s cd none exch).2.1 ts2 now2
        s cd2 none exch2).1 = CallbackResp.invalidState := by
  have hst := whoop_callback_store_eq ss ts now s cd exch
  constructor
  · rw [hst]
    exact lookupState_pop_self ss s
  · rw [hst]
    have hf : ((pop_state ss s).2).find? (fun r => r.state == s) = none := by
      have h2 := lookupState_pop_self ss s
      unfold lookupState at h2
      exact Option.map_eq_none'.mp h2
    unfold whoop_callback
    rw [pop_state_of_find_none _ _ hf]

/-- C6: `get_valid_token` returns absent with no stored record; returns the
stored token unchanged at 61 seconds to expiry; and performs a synchronous
refresh whenever `expires_at - now ≤ 60` (for a record with a truthy, i.e.
nonzero, `expires_at`). -/
theorem C6_refresh_trigger_boundary (st : TokenStore) (now chatId : ℤ)
    (prov : String) (resp : Option TokenData) :
    (lookupToken st chatId prov = none →
      get_valid_token st now chatId prov resp = (none, st)) ∧
    (∀ row, lookupToken st chatId prov = some row →
      (row.expires_at - now = 61 →
        get_valid_token st now chatId prov resp = (some row.access_token, st)) ∧
      (row.expires_at ≠ 0 → row.expires_at - now ≤ 60 →
        get_valid_token st now chatId prov resp =
          refresh_token st now chatId prov resp)) := by
  constructor
  · intro h
    simp only [get_valid_token, h]
  · intro row h
    constructor
    · intro h61
      simp only [get_valid_token, h]
      rw [if_neg]
      rintro ⟨-, hge⟩
      omega
    · intro h0 h60
      simp only [get_valid_token, h]
      rw [if_pos ⟨h0, by omega⟩]

/-- C6 witness: the theorem at a missing record, at a concrete record 61
seconds from expiry, and at one 59 seconds from expiry. -/
theorem C6_refresh_trigger_boundary_witness :
    get_valid_token [] 1000 1 "whoop" none = (none, []) ∧
    get_valid_token [⟨1, "whoop", "tok", some "ref", 1061, 0⟩] 1000 1 "whoop" none =
      (some "tok", [⟨1, "whoop", "tok", some "ref", 1061, 0⟩]) ∧
    get_valid_token [⟨1, "whoop", "tok", some "ref", 1059, 0⟩] 1000 1 "whoop" none =
      refresh_token [⟨1, "whoop", "tok", some "ref", 1059, 0⟩] 1000 1 "whoop" none :=
  ⟨(C6_refresh_trigger_boundary [] 1000 1 "whoop" none).1 rfl,
   ((C6_refresh_trigger_boundary [⟨1, "whoop", "tok", some "ref", 1061, 0⟩]
      1000 1 "whoop" none).2 ⟨1, "whoop", "tok", some "ref", 1061, 0⟩ rfl).1
     (by decide),
   ((C6_refresh_trigger_boundary [⟨1, "whoop", "tok", some "ref", 1059, 0⟩]
      1000 1 "whoop" none).2 ⟨1, "whoop", "tok", some "ref", 1059, 0⟩ rfl).2
     (by decide) (by decide)⟩

/-- C7: at the failing input — a stored record with refresh token
"old-refresh" and a refresh response that omits a new refresh token — the
refresh succeeds but the stored `refresh_token` becomes `none` (the upsert
writes `token_data.get("refresh_token")`, i.e. NULL), contradicting the
claim that the old value is retained and never nulled. -/
theorem C7_refresh_token_nulled_on_omission :
    (refresh_token [⟨1, "whoop", "old-access", some "old-refresh", 1000, 500⟩]
        2000 1 "whoop" (some ⟨some "new-access", none, some 3600⟩)).1 =
      some "new-access" ∧
    (refresh_token [⟨1, "whoop", "old-access", some "old-refresh", 1000, 500⟩]
        2000 1 "whoop" (some ⟨some "new-access", none, some 3600⟩)).2 =
      [⟨1, "whoop", "new-access", none, 5600, 2000⟩] :=
  ⟨rfl, rfl⟩

/-- C8: `get_all` on either client never raises at all — `_latest`,
`get_workout` and `_fetch_today` wrap every request in
`except Exception: return None`, which also swallows the auth errors raised by
`_headers`/`_get` — so an absent credential (or a 401 on every endpoint)
yields a normally-returned record with every field null instead of the
`AuthError` the claim requires. -/
theorem C8_get_all_never_raises :
    (∀ (token : Option String) (r1 r2 s1 s2 wk : Except String (List WhoopRecord)),
      ∃ rec, whoop_get_all token r1 r2 s1 s2 wk = Except.ok rec) ∧
    (∀ (token : Option String)
        (a1 a2 b1 b2 c1 c2 d1 d2 : Except String (List OuraDailyRecord)),
      ∃ rec, oura_get_all token a1 a2 b1 b2 c1 c2 d1 d2 = Except.ok rec) ∧
    (∀ (r1 r2 s1 s2 wk : Except String (List WhoopRecord)),
      whoop_get_all none r1 r2 s1 s2 wk = Except.ok {}) ∧
    (∀ (token : Option String)
        (a1 a2 b1 b2 c1 c2 d1 d2 : Except String (List OuraDailyRecord)),
      oura_get_all token a1 a2 b1 b2 c1 c2 d1 d2 = Except.ok {}) :=
  ⟨fun _ _ _ _ _ _ => ⟨_, rfl⟩,
   fun _ _ _ _ _ _ _ _ _ => ⟨_, rfl⟩,
   fun r1 r2 s1 s2 wk => by
     simp [whoop_get_all, whoop_latest, whoop_workout, whoop_headers],
   fun _ _ _ _ _ _ _ _ _ => rfl⟩

/-- C10: whenever a refresh attempt fails — no record or no refresh token on
file, or the provider request fails — `refresh_token` returns absent and the
token store is completely unchanged. -/
theorem C10_failed_refresh_leaves_store_unchanged (st : TokenStore)
    (now chatId : ℤ) (prov : String) (resp : Option TokenData)
    (h : lookupToken st chatId prov = none ∨
         (∃ row, lookupToken st chatId prov = some row ∧ row.refresh_token = none) ∨
         resp = none) :
    refresh_token st now chatId prov resp = (none, st) := by
  rcases h with h | ⟨row, hrow, hrt⟩ | hresp
  · simp only [refresh_token, h]
  · simp only [refresh_token, hrow, hrt]
  · subst hresp
    rcases hl : lookupToken st chatId prov with _ | row
    · simp only [refresh_token, hl]
    · rcases hrt : row.refresh_token with _ | r
      · simp only [refresh_token, hl, hrt]
      · simp only [refresh_token, hl, hrt]
        split <;> rfl

/-- C10 witness: a record with no refresh token on file is returned absent and
left unchanged even when the provider would have answered. -/
theorem C10_failed_refresh_witness :
    refresh_token [⟨1, "whoop", "acc", none, 1000, 0⟩] 2000 1 "whoop"
        (some ⟨some "new", some "ref2", some 3600⟩) =
      (none, [⟨1, "whoop", "acc", none, 1000, 0⟩]) :=
  C10_failed_refresh_leaves_store_unchanged _ 2000 1 "whoop" _
    (Or.inr (Or.inl ⟨_, rfl, rfl⟩))

end HealthBot
